import Mathlib

/-!
Verification of the result-export layer (`src/output.rs`) of the proseg
repository: format inference, tabular writers, the FOV majority vote, the
optional-path artifact writers, and the streaming GeoJSON encoders.

Modelling conventions:
* Rust `u32`/`u64`/`usize` values are `Nat`; the one place the source casts a
  `usize` to `u32` (`winner = fov as u32`) is embedded as `% 2^32`.
* `f32` values are modelled as exact rationals (`Rat`); no claim inspects
  floating-point arithmetic, only the plumbing that carries these values.
* Rust panics are modelled as `Option`/explicit panic messages; filesystem
  side effects are modelled as an explicit event trace (`FileEvent`).
* GeoJSON coordinate ordinates are modelled as `Int` rendered in decimal,
  standing for the `Display` text of the `f32` ordinates: only the rendered
  token's position in the document matters to the claims, never its value.
-/

namespace Proseg

/-- Output format enum from `src/output.rs` (`OutputFormat`). -/
inductive OutputFormat where
  | Infer
  | Csv
  | CsvGz
  | Parquet
deriving DecidableEq, Repr

/-- Embedding of Rust `str::ends_with`: the suffix's characters are a suffix
of the string's characters. -/
def str_ends_with (s suffix : String) : Bool :=
  suffix.data.isSuffixOf s.data

/-- Embedding of `infer_format_from_filename` (`src/output.rs:129`). The
source panics on an unrecognized suffix; the panic is modelled as `none`. -/
def infer_format_from_filename (filename : String) : Option OutputFormat :=
  if str_ends_with filename ".csv.gz" then some OutputFormat.CsvGz
  else if str_ends_with filename ".csv" then some OutputFormat.Csv
  else if str_ends_with filename ".parquet" then some OutputFormat.Parquet
  else none

theorem str_ends_with_iff (s suffix : String) :
    str_ends_with s suffix = true ↔ suffix.data <:+ s.data := by
  simp [str_ends_with]

theorem not_ends_csv_gz_of_ends_csv (s : String)
    (h : str_ends_with s ".csv" = true) : str_ends_with s ".csv.gz" = false := by
  rw [str_ends_with_iff] at h
  rw [← Bool.not_eq_true, str_ends_with_iff]
  intro hgz
  rcases List.suffix_or_suffix_of_suffix h hgz with h1 | h2
  · have h1' : (".csv".data).isSuffixOf (".csv.gz".data) = true := by
      rw [List.isSuffixOf_iff_suffix]; exact h1
    simp [List.isSuffixOf] at h1'
  · have h2' : (".csv.gz".data).isSuffixOf (".csv".data) = true := by
      rw [List.isSuffixOf_iff_suffix]; exact h2
    simp [List.isSuffixOf] at h2'

theorem not_ends_csv_gz_of_ends_parquet (s : String)
    (h : str_ends_with s ".parquet" = true) :
    str_ends_with s ".csv.gz" = false := by
  rw [str_ends_with_iff] at h
  rw [← Bool.not_eq_true, str_ends_with_iff]
  intro hgz
  rcases List.suffix_or_suffix_of_suffix h hgz with h1 | h2
  · have h1' : (".parquet".data).isSuffixOf (".csv.gz".data) = true := by
      rw [List.isSuffixOf_iff_suffix]; exact h1
    simp [List.isSuffixOf] at h1'
  · have h2' : (".csv.gz".data).isSuffixOf (".parquet".data) = true := by
      rw [List.isSuffixOf_iff_suffix]; exact h2
    simp [List.isSuffixOf] at h2'

theorem not_ends_csv_of_ends_parquet (s : String)
    (h : str_ends_with s ".parquet" = true) :
    str_ends_with s ".csv" = false := by
  rw [str_ends_with_iff] at h
  rw [← Bool.not_eq_true, str_ends_with_iff]
  intro hcsv
  rcases List.suffix_or_suffix_of_suffix h hcsv with h1 | h2
  · have h1' : (".parquet".data).isSuffixOf (".csv".data) = true := by
      rw [List.isSuffixOf_iff_suffix]; exact h1
    simp [List.isSuffixOf] at h1'
  · have h2' : (".csv".data).isSuffixOf (".parquet".data) = true := by
      rw [List.isSuffixOf_iff_suffix]; exact h2
    simp [List.isSuffixOf] at h2'

/-- C2: for every filename, `infer_format_from_filename` returns `CsvGz` when
it ends in ".csv.gz", `Csv` when it ends in ".csv" (such a name cannot also
end in ".csv.gz"), `Parquet` when it ends in ".parquet", and fails (panics,
modelled as `none`) for any other suffix. -/
theorem infer_format_matches_suffix (f : String) :
    (str_ends_with f ".csv.gz" = true →
      infer_format_from_filename f = some OutputFormat.CsvGz) ∧
    (str_ends_with f ".csv" = true →
      infer_format_from_filename f = some OutputFormat.Csv) ∧
    (str_ends_with f ".parquet" = true →
      infer_format_from_filename f = some OutputFormat.Parquet) ∧
    (str_ends_with f ".csv.gz" = false → str_ends_with f ".csv" = false →
      str_ends_with f ".parquet" = false →
      infer_format_from_filename f = none) := by
  refine ⟨fun h => ?_, fun h => ?_, fun h => ?_, fun h1 h2 h3 => ?_⟩
  · simp [infer_format_from_filename, h]
  · simp [infer_format_from_filename, h, not_ends_csv_gz_of_ends_csv f h]
  · simp [infer_format_from_filename, h, not_ends_csv_gz_of_ends_parquet f h,
      not_ends_csv_of_ends_parquet f h]
  · simp [infer_format_from_filename, h1, h2, h3]

/-- Witness for C2: each branch of the suffix dispatch evaluated at a
concrete filename. -/
theorem infer_format_matches_suffix_witness :
    infer_format_from_filename "a.csv.gz" = some OutputFormat.CsvGz ∧
    infer_format_from_filename "a.csv" = some OutputFormat.Csv ∧
    infer_format_from_filename "a.parquet" = some OutputFormat.Parquet ∧
    infer_format_from_filename "a.txt" = none :=
  ⟨(infer_format_matches_suffix "a.csv.gz").1 (by decide),
   (infer_format_matches_suffix "a.csv").2.1 (by decide),
   (infer_format_matches_suffix "a.parquet").2.2.1 (by decide),
   (infer_format_matches_suffix "a.txt").2.2.2 (by decide) (by decide) (by decide)⟩

/-- Arrow data types used by this module (`arrow2::datatypes::DataType`);
only the variants the source constructs are modelled. -/
inductive DataType where
  | UInt8
  | UInt16
  | UInt32
  | UInt64
  | Float32
  | Utf8
deriving DecidableEq, Repr

/-- Arrow field: name, data type, nullability (`arrow2::datatypes::Field`). -/
structure Field where
  name : String
  dataType : DataType
  nullable : Bool
deriving DecidableEq, Repr

/-- Arrow schema: an ordered list of fields. -/
structure Schema where
  fields : List Field
deriving DecidableEq, Repr

/-- Cell value of a typed arrow column. `f32` cells carry a `Rat` standing
for the float; `vNull` is a null entry of a nullable column. -/
inductive Value where
  | vU8 (n : Nat)
  | vU16 (n : Nat)
  | vU32 (n : Nat)
  | vU64 (n : Nat)
  | vF32 (q : Rat)
  | vStr (s : String)
  | vNull
deriving DecidableEq, Repr

/-- Column-major batch of typed arrays (`arrow2::chunk::Chunk`). -/
def Chunk : Type := List (List Value)

instance : DecidableEq Chunk := by
  unfold Chunk
  infer_instance

/-- Textual rendering of one cell, modelling the default
`arrow2::io::csv::write::SerializeOptions` serialization: integers in
decimal, strings quoted when they contain the delimiter, nulls empty. -/
def csvCell : Value → String
  | Value.vU8 n => toString n
  | Value.vU16 n => toString n
  | Value.vU32 n => toString n
  | Value.vU64 n => toString n
  | Value.vF32 q => toString q
  | Value.vStr s => if s.contains ',' then "\"" ++ s ++ "\"" else s
  | Value.vNull => ""

/-- Embedding of `write_table_csv` (`src/output.rs:63`): a header line of
comma-joined column names followed by one comma-joined line per row. The
byte sink is modelled by returning the written text. -/
def write_table_csv (schema : Schema) (chunk : Chunk) : String :=
  String.intercalate "," (schema.fields.map Field.name) ++ "\n" ++
    String.join ((List.transpose chunk).map
      (fun row => String.intercalate "," (row.map csvCell) ++ "\n"))

/-- Parquet page compression options (`arrow2::io::parquet::write`); the
source always selects Zstd at `ZstdLevel::default()`. -/
inductive PqCompression where
  | uncompressed
  | snappy
  | gzipLevel (level : Nat)
  | zstdDefault
deriving DecidableEq, Repr

/-- Parquet value encoding; the source always selects `Encoding::Plain`. -/
inductive PqEncoding where
  | plain
  | rleDictionary
  | deltaBinaryPacked
deriving DecidableEq, Repr

/-- Embedding of `arrow2::io::parquet::write::transverse`: one encoding per
parquet leaf column of a field's data type. Every data type this module
writes is flat, so there is exactly one leaf. -/
def transverse (dt : DataType) (f : DataType → PqEncoding) : List PqEncoding :=
  [f dt]

/-- Configuration and content of the parquet file produced by
`write_table_parquet`: write options, per-field leaf encodings, and the row
groups handed to the file writer. -/
structure ParquetFile where
  writeStatistics : Bool
  version : Nat
  compression : PqCompression
  encodings : List (List PqEncoding)
  rowGroups : List Chunk
deriving DecidableEq

/-- Embedding of `write_table_parquet` (`src/output.rs:82`): statistics on,
version V2, Zstd default compression, `Plain` encoding chosen for every leaf
via `transverse`, and a single row group built from `vec![Ok(chunk)]`. -/
def write_table_parquet (schema : Schema) (chunk : Chunk) : ParquetFile :=
  { writeStatistics := true
    version := 2
    compression := PqCompression.zstdDefault
    encodings := schema.fields.map (fun f => transverse f.dataType (fun _ => PqEncoding.plain))
    rowGroups := [chunk] }

/-- Observable filesystem/process effects of a writer call. `writeGz s`
records that the text `s` was streamed through a `GzEncoder` into the file:
`s` is the byte stream a gzip decompression of the file yields. -/
inductive FileEvent where
  | create (name : String)
  | writeRaw (content : String)
  | writeGz (content : String)
  | writeParquet (file : ParquetFile)
  | stderrLine (line : String)
deriving DecidableEq

/-- Outcome of one writer call: the effects it performed, in order, and the
panic it ended with, if any. -/
structure ExportResult where
  events : List FileEvent
  panicMsg : Option String
deriving DecidableEq

/-- Format resolution step at the top of `write_table`: `Infer` is replaced
by the inferred format, anything else is kept. -/
def resolve_format (fmt : OutputFormat) (filename : String) : Option OutputFormat :=
  match fmt with
  | OutputFormat.Infer => infer_format_from_filename filename
  | _ => some fmt

/-- Embedding of `write_table` (`src/output.rs:27`): resolve the format
(panicking before anything else if inference fails), then `File::create`,
then dispatch on the resolved format. The unreachable `Infer` match arm
panics after the create, exactly as in the source. -/
def write_table (filename : String) (fmt : OutputFormat) (schema : Schema)
    (chunk : Chunk) : ExportResult :=
  match resolve_format fmt filename with
  | none =>
      { events := []
        panicMsg := some ("Unknown file format for filename: " ++ filename) }
  | some fmt' =>
      match fmt' with
      | OutputFormat.Infer =>
          { events := [FileEvent.create filename]
            panicMsg := some ("Cannot infer output format for filename: " ++ filename) }
      | OutputFormat.Csv =>
          { events := [FileEvent.create filename,
                       FileEvent.writeRaw (write_table_csv schema chunk)]
            panicMsg := none }
      | OutputFormat.CsvGz =>
          { events := [FileEvent.create filename,
                       FileEvent.writeGz (write_table_csv schema chunk)]
            panicMsg := none }
      | OutputFormat.Parquet =>
          { events := [FileEvent.create filename,
                       FileEvent.writeParquet (write_table_parquet schema chunk)]
            panicMsg := none }

/-- C3: when `write_table` is called with format `Infer` and a filename whose
suffix matches no recognized extension, it panics with no events performed:
in particular no `create` event, so no file is opened or left on disk. -/
theorem write_table_infer_fail_no_file (filename : String) (schema : Schema)
    (chunk : Chunk) (h : infer_format_from_filename filename = none) :
    write_table filename OutputFormat.Infer schema chunk =
      { events := []
        panicMsg := some ("Unknown file format for filename: " ++ filename) } := by
  simp [write_table, resolve_format, h]

/-- Witness for C3: a ".txt" filename is rejected with an empty event
trace. -/
theorem write_table_infer_fail_no_file_witness :
    write_table "out.txt" OutputFormat.Infer (Schema.mk []) ([] : Chunk) =
      { events := []
        panicMsg := some ("Unknown file format for filename: " ++ "out.txt") } :=
  write_table_infer_fail_no_file "out.txt" (Schema.mk []) ([] : Chunk) (by decide)

/-- Uncompressed text that a gzip decompression of the written file yields,
when the call wrote through a `GzEncoder`. -/
def gz_decompressed_output (r : ExportResult) : Option String :=
  r.events.findSome? (fun e =>
    match e with
    | FileEvent.writeGz c => some c
    | _ => none)

/-- Raw text written directly to the file, when the call wrote without
compression. -/
def raw_output (r : ExportResult) : Option String :=
  r.events.findSome? (fun e =>
    match e with
    | FileEvent.writeRaw c => some c
    | _ => none)

/-- C6: for every filename, schema and column batch, the byte stream the
CsvGz write produces, after gzip decompression, is identical to the byte
stream the Csv write produces: both are `write_table_csv schema chunk`. -/
theorem csv_gz_decompresses_to_csv (name₁ name₂ : String) (schema : Schema)
    (chunk : Chunk) :
    gz_decompressed_output (write_table name₁ OutputFormat.CsvGz schema chunk) =
      raw_output (write_table name₂ OutputFormat.Csv schema chunk) ∧
    gz_decompressed_output (write_table name₁ OutputFormat.CsvGz schema chunk) =
      some (write_table_csv schema chunk) := by
  constructor <;>
    simp [write_table, resolve_format, gz_decompressed_output, raw_output,
      List.findSome?]

/-- C8: for every schema and batch, `write_table_parquet` enables per-column
statistics, compresses with Zstd at its default level, chooses plain
encoding for every leaf of every field, and hands the writer exactly one row
group holding the whole batch. -/
theorem parquet_write_configuration (schema : Schema) (chunk : Chunk) :
    write_table_parquet schema chunk =
      { writeStatistics := true
        version := 2
        compression := PqCompression.zstdDefault
        encodings := schema.fields.map (fun _ => [PqEncoding.plain])
        rowGroups := [chunk] } := by
  simp [write_table_parquet, transverse]

/-- Largest `u32` value, the no-vote sentinel `cell_fov_vote` starts its
`winner` accumulator with. -/
def U32_MAX : Nat := 4294967295

/-- Modelled from the spec: `sampler::transcripts::BACKGROUND_CELL` is
declared outside `src/`. The spec describes the background assignment as a
distinguished out-of-range `u32` sentinel, i.e. `u32::MAX`. -/
def BACKGROUND_CELL : Nat := U32_MAX

/-- One increment pass of the `fov_votes` matrix: the entry at each
non-background assignment's `(cell, fov)` grows by one. The matrix is
modelled as a function from indices to counts. -/
def fov_votes_aux : List (Nat × Nat × Rat) → (Nat → Nat → Nat) → (Nat → Nat → Nat)
  | [], m => m
  | p :: rest, m =>
      if p.2.1 ≠ BACKGROUND_CELL then
        fov_votes_aux rest
          (fun c f => if c = p.2.1 ∧ f = p.1 then m c f + 1 else m c f)
      else
        fov_votes_aux rest m

/-- Vote matrix of `cell_fov_vote` (`src/output.rs:283`): for each zipped
`(fov, (cell, _))` pair with a non-background cell, bump the `(cell, fov)`
entry, starting from the all-zero matrix. -/
def fov_votes (cell_assignments : List (Nat × Rat)) (fovs : List Nat) :
    Nat → Nat → Nat :=
  fov_votes_aux (fovs.zip cell_assignments) (fun _ _ => 0)

/-- In the source the vote matrix is an `ndarray::Array2` of shape
`(ncells, nfovs)`, so an increment at an out-of-range `(cell, fov)` panics.
This predicate holds exactly when no increment is out of range. -/
def vote_in_bounds (ncells nfovs : Nat) (cell_assignments : List (Nat × Rat))
    (fovs : List Nat) : Bool :=
  (fovs.zip cell_assignments).all (fun p =>
    p.2.1 == BACKGROUND_CELL || (decide (p.2.1 < ncells) && decide (p.1 < nfovs)))

/-- Loop body of the winner scan in `cell_fov_vote`: on a strictly larger
count, record the fov (cast `as u32`, embedded as `% 2^32`) and its count. -/
def winner_step (votes : Nat → Nat) (acc : Nat × Nat) (fov : Nat) : Nat × Nat :=
  if votes fov > acc.2 then (fov % 4294967296, votes fov) else acc

/-- Winner scan over one row of the vote matrix: ascending fovs, starting
from `(u32::MAX, 0)`, keeping the first strictly-largest count. -/
def rowWinner (votes : Nat → Nat) (nfovs : Nat) : Nat :=
  ((List.range nfovs).foldl (winner_step votes) (U32_MAX, 0)).1

/-- Embedding of `cell_fov_vote` (`src/output.rs:277`): build the vote
matrix (panicking, i.e. `none`, if an increment is out of range), then map
the winner scan over the `ncells` rows. -/
def cell_fov_vote (ncells nfovs : Nat) (cell_assignments : List (Nat × Rat))
    (fovs : List Nat) : Option (List Nat) :=
  if vote_in_bounds ncells nfovs cell_assignments fovs then
    some ((List.range ncells).map
      (fun c => rowWinner (fov_votes cell_assignments fovs c) nfovs))
  else
    none

/-- Predicate picking out the zipped `(fov, (cell, _))` pairs that vote for
cell `c` with fov `f`. -/
def vote_pred (c f : Nat) (p : Nat × Nat × Rat) : Bool :=
  decide (p.2.1 ≠ BACKGROUND_CELL) && (p.2.1 == c) && (p.1 == f)

/-- Reference count: how many zipped `(fov, (cell, _))` pairs vote for cell
`c` with fov `f`. -/
def tally (cell_assignments : List (Nat × Rat)) (fovs : List Nat)
    (c f : Nat) : Nat :=
  ((fovs.zip cell_assignments).filter (vote_pred c f)).length

theorem fov_votes_aux_eq (l : List (Nat × Nat × Rat)) :
    ∀ (m : Nat → Nat → Nat) (c f : Nat),
    fov_votes_aux l m c f = m c f + (l.filter (vote_pred c f)).length := by
  induction l with
  | nil => intro m c f; simp [fov_votes_aux]
  | cons p rest ih =>
    intro m c f
    by_cases hbg : p.2.1 ≠ BACKGROUND_CELL
    · rw [fov_votes_aux, if_pos hbg, ih]
      by_cases hm : c = p.2.1 ∧ f = p.1
      · obtain ⟨hc, hf⟩ := hm
        subst hc
        subst hf
        rw [List.filter_cons_of_pos (by simp [vote_pred, hbg]), List.length_cons,
          if_pos (And.intro rfl rfl)]
        omega
      · have hp : ¬ (vote_pred c f p = true) := by
          unfold vote_pred
          by_cases h2 : p.2.1 = c
          · by_cases h3 : p.1 = f
            · exact absurd ⟨h2.symm, h3.symm⟩ hm
            · simp [h3]
          · simp [h2]
        rw [List.filter_cons_of_neg hp, if_neg hm]
    · rw [fov_votes_aux, if_neg hbg, ih]
      have hp : ¬ (vote_pred c f p = true) := by
        unfold vote_pred
        simp only [ne_eq, not_not] at hbg
        simp [hbg]
      rw [List.filter_cons_of_neg hp]

theorem fov_votes_eq_tally (cell_assignments : List (Nat × Rat))
    (fovs : List Nat) (c f : Nat) :
    fov_votes cell_assignments fovs c f = tally cell_assignments fovs c f := by
  rw [fov_votes, fov_votes_aux_eq, tally]
  exact Nat.zero_add _

theorem winner_fold_spec (votes : Nat → Nat) (n : Nat) :
    ((List.range n).foldl (winner_step votes) (U32_MAX, 0) = (U32_MAX, 0) ∧
      ∀ f, f < n → votes f = 0) ∨
    (∃ w, w < n ∧
      (List.range n).foldl (winner_step votes) (U32_MAX, 0) = (w % 4294967296, votes w) ∧
      0 < votes w ∧ (∀ f, f < n → votes f ≤ votes w) ∧
      ∀ f, f < w → votes f < votes w) := by
  induction n with
  | zero => exact Or.inl ⟨rfl, fun f hf => absurd hf (Nat.not_lt_zero f)⟩
  | succ n ih =>
    rw [List.range_succ, List.foldl_append]
    rcases ih with ⟨hacc, hzero⟩ | ⟨w, hw, hacc, hpos, hmax, hlt⟩
    · rw [hacc]
      by_cases hn : votes n > 0
      · refine Or.inr ⟨n, Nat.lt_succ_self n, ?_, hn, ?_, ?_⟩
        · simp [winner_step, hn]
        · intro f hf
          rcases Nat.lt_succ_iff_lt_or_eq.1 hf with hf' | rfl
          · rw [hzero f hf']; exact Nat.zero_le _
          · exact Nat.le_refl _
        · intro f hf
          rw [hzero f (hf.trans_le (Nat.le_refl n))]
          exact hn
      · refine Or.inl ⟨?_, ?_⟩
        · simp [winner_step, hn]
        · intro f hf
          rcases Nat.lt_succ_iff_lt_or_eq.1 hf with hf' | rfl
          · exact hzero f hf'
          · omega
    · rw [hacc]
      by_cases hn : votes n > votes w
      · refine Or.inr ⟨n, Nat.lt_succ_self n, ?_, hpos.trans hn, ?_, ?_⟩
        · simp [winner_step, hn]
        · intro f hf
          rcases Nat.lt_succ_iff_lt_or_eq.1 hf with hf' | rfl
          · exact (hmax f hf').trans (Nat.le_of_lt hn)
          · exact Nat.le_refl _
        · intro f hf
          exact (hmax f hf).trans_lt hn
      · refine Or.inr ⟨w, hw.trans (Nat.lt_succ_self n), ?_, hpos, ?_, hlt⟩
        · simp [winner_step, hn]
        · intro f hf
          rcases Nat.lt_succ_iff_lt_or_eq.1 hf with hf' | rfl
          · exact hmax f hf'
          · exact Nat.le_of_not_lt hn

theorem rowWinner_spec (votes : Nat → Nat) (n : Nat) :
    (rowWinner votes n = U32_MAX ∧ ∀ f, f < n → votes f = 0) ∨
    (∃ w, w < n ∧ rowWinner votes n = w % 4294967296 ∧ 0 < votes w ∧
      (∀ f, f < n → votes f ≤ votes w) ∧ ∀ f, f < w → votes f < votes w) := by
  rcases winner_fold_spec votes n with ⟨hacc, hzero⟩ | ⟨w, hw, hacc, h⟩
  · exact Or.inl ⟨by rw [rowWinner, hacc], hzero⟩
  · exact Or.inr ⟨w, hw, by rw [rowWinner, hacc], h⟩

/-- Embedding of the fov column construction in `write_cell_metadata`
(`src/output.rs:342`): the sentinel becomes a null entry, any other vote
indexes `fov_names` (panicking, modelled as `none`, when out of bounds). -/
def fov_column : List Nat → List String → Option (List Value)
  | [], _ => some []
  | fov :: rest, fov_names =>
      match (if fov = U32_MAX then some Value.vNull
             else (fov_names[fov]?).map Value.vStr),
            fov_column rest fov_names with
      | some v, some vs => some (v :: vs)
      | _, _ => none

theorem fov_column_isSome (cell_fovs : List Nat) (fov_names : List String)
    (h : ∀ w ∈ cell_fovs, w = U32_MAX ∨ w < fov_names.length) :
    (fov_column cell_fovs fov_names).isSome = true := by
  induction cell_fovs with
  | nil => rfl
  | cons w rest ih =>
    have hrest := ih (fun x hx => h x (List.mem_cons_of_mem _ hx))
    obtain ⟨vs, hvs⟩ := Option.isSome_iff_exists.1 hrest
    rcases h w (List.mem_cons_self w rest) with hs | hb
    · rw [fov_column, if_pos hs, hvs]
      rfl
    · by_cases hs : w = U32_MAX
      · rw [fov_column, if_pos hs, hvs]
        rfl
      · rw [fov_column, if_neg hs, List.getElem?_eq_getElem hb, hvs]
        rfl

/-- C9: whenever `cell_fov_vote` returns (does not panic), its result has
exactly `ncells` entries, each entry is the sentinel `u32::MAX` or a fov
index strictly below `nfovs`; consequently building the cell-metadata fov
column, which indexes `fov_names` only at non-sentinel entries, never goes
out of bounds when `fov_names` has `nfovs` entries. -/
theorem cell_fov_vote_bounds (ncells nfovs : Nat)
    (cell_assignments : List (Nat × Rat)) (fovs : List Nat) (out : List Nat)
    (h : cell_fov_vote ncells nfovs cell_assignments fovs = some out) :
    out.length = ncells ∧
    (∀ w ∈ out, w = U32_MAX ∨ w < nfovs) ∧
    (∀ fov_names : List String, fov_names.length = nfovs →
      (fov_column out fov_names).isSome = true) := by
  rw [cell_fov_vote] at h
  by_cases hb : vote_in_bounds ncells nfovs cell_assignments fovs
  · rw [if_pos hb, Option.some_inj] at h
    subst h
    have hbound : ∀ w ∈ (List.range ncells).map
        (fun c => rowWinner (fov_votes cell_assignments fovs c) nfovs),
        w = U32_MAX ∨ w < nfovs := by
      intro w hw
      obtain ⟨c, _, rfl⟩ := List.mem_map.1 hw
      rcases rowWinner_spec (fov_votes cell_assignments fovs c) nfovs with
        ⟨hmax, _⟩ | ⟨w0, hw0, heq, _⟩
      · exact Or.inl hmax
      · right
        rw [heq]
        exact lt_of_le_of_lt (Nat.mod_le w0 4294967296) hw0
    refine ⟨by simp, hbound, ?_⟩
    intro fov_names hn
    refine fov_column_isSome _ fov_names (fun w hw => ?_)
    rw [hn]
    exact hbound w hw
  · rw [if_neg hb] at h
    cases h

/-- Witness for C9: the bounds evaluated on a concrete vote. -/
theorem cell_fov_vote_bounds_witness :
    ([5, 7, U32_MAX] : List Nat).length = 3 ∧
    ((5 : Nat) = U32_MAX ∨ (5 : Nat) < 8) ∧
    (fov_column [5, 7, U32_MAX]
      ["a", "b", "c", "d", "e", "f", "g", "h"]).isSome = true := by
  have h := cell_fov_vote_bounds 3 8 [(0, 0), (0, 0), (1, 0)] [5, 5, 7]
    [5, 7, U32_MAX] (by decide)
  exact ⟨h.1, h.2.1 5 (by decide),
    h.2.2 ["a", "b", "c", "d", "e", "f", "g", "h"] (by decide)⟩

/-- C5: for every cell of a returned vote, a non-sentinel winner `w` is in
range, has a positive count, its count is maximal among all `nfovs` counts
for that cell, and every smaller fov index has a strictly smaller count
(ties go to the lowest fov index); and on concrete counts of three votes
each for fovs 1 and 2, fov 1 wins. The side condition bounds `nfovs` by the
`u32` range so the `fov as u32` cast in the source is lossless. -/
theorem cell_fov_vote_argmax :
    (∀ (ncells nfovs : Nat) (cell_assignments : List (Nat × Rat))
        (fovs : List Nat) (out : List Nat) (c w : Nat),
      nfovs ≤ 4294967296 →
      cell_fov_vote ncells nfovs cell_assignments fovs = some out →
      out[c]? = some w → w ≠ U32_MAX →
      w < nfovs ∧ 0 < tally cell_assignments fovs c w ∧
        (∀ f, f < nfovs →
          tally cell_assignments fovs c f ≤ tally cell_assignments fovs c w) ∧
        (∀ f, f < w →
          tally cell_assignments fovs c f < tally cell_assignments fovs c w)) ∧
    cell_fov_vote 1 3 [(0, 0), (0, 0), (0, 0), (0, 0), (0, 0), (0, 0)]
      [1, 1, 1, 2, 2, 2] = some [1] := by
  constructor
  · intro ncells nfovs cas fovs out c w hn h hg hw
    rw [cell_fov_vote] at h
    by_cases hb : vote_in_bounds ncells nfovs cas fovs
    · rw [if_pos hb, Option.some_inj] at h
      subst h
      rw [List.getElem?_map] at hg
      by_cases hc : c < ncells
      · rw [List.getElem?_range hc] at hg
        simp only [Option.map_some'] at hg
        obtain rfl := Option.some_inj.1 hg
        rcases rowWinner_spec (fov_votes cas fovs c) nfovs with
          ⟨hmax, _⟩ | ⟨w0, hw0, heq, hpos, hmax, hlt⟩
        · exact absurd hmax hw
        · have hmod : w0 % 4294967296 = w0 :=
            Nat.mod_eq_of_lt (lt_of_lt_of_le hw0 hn)
          rw [heq, hmod]
          rw [heq, hmod] at hw
          refine ⟨hw0, ?_, ?_, ?_⟩
          · rw [← fov_votes_eq_tally]
            exact hpos
          · intro f hf
            rw [← fov_votes_eq_tally, ← fov_votes_eq_tally]
            exact hmax f hf
          · intro f hf
            rw [← fov_votes_eq_tally, ← fov_votes_eq_tally]
            exact hlt f hf
      · rw [List.getElem?_eq_none (by simpa using Nat.le_of_not_lt hc)] at hg
        cases hg
    · rw [if_neg hb] at h
      cases h
  · decide

/-- Witness for C5: the argmax facts evaluated on the three-versus-three
tie, where fov 1 beats fov 2. -/
theorem cell_fov_vote_argmax_witness :
    0 < tally [(0, 0), (0, 0), (0, 0), (0, 0), (0, 0), (0, 0)]
        [1, 1, 1, 2, 2, 2] 0 1 ∧
    tally [(0, 0), (0, 0), (0, 0), (0, 0), (0, 0), (0, 0)]
        [1, 1, 1, 2, 2, 2] 0 2 ≤
      tally [(0, 0), (0, 0), (0, 0), (0, 0), (0, 0), (0, 0)]
        [1, 1, 1, 2, 2, 2] 0 1 := by
  have h := cell_fov_vote_argmax.1 1 3
    [(0, 0), (0, 0), (0, 0), (0, 0), (0, 0), (0, 0)] [1, 1, 1, 2, 2, 2]
    [1] 0 1 (by decide) (by decide) (by decide) (by decide)
  exact ⟨h.2.1, h.2.2.1 2 (by decide)⟩

/-- Counterexample to C4 as stated: with assignments
`[(0, _), (0, _), (1, _)]` and fovs `[5, 5, 7]`, cell 1 has one assigned
vote (fov 7), so its result is 7 — not the no-vote sentinel the claim
asserts. -/
theorem cell_fov_vote_c4_counterexample :
    cell_fov_vote 2 8 [(0, (0 : Rat)), (0, 0), (1, 0)] [5, 5, 7] =
      some [5, 7] ∧ (7 : Nat) ≠ U32_MAX := by
  constructor
  · decide
  · decide

theorem tally_c4_row0 (p₁ p₂ p₃ : Rat) (f : Nat) :
    tally [(0, p₁), (0, p₂), (1, p₃)] [5, 5, 7] 0 f =
      if f = 5 then 2 else 0 := by
  by_cases hf : f = 5
  · subst hf
    rfl
  · rw [if_neg hf]
    have h5 : ((5 : Nat) == f) = false := by
      simp [beq_iff_eq]
      exact fun h => hf h.symm
    simp [tally, List.zip, vote_pred, h5]

theorem tally_c4_row1 (p₁ p₂ p₃ : Rat) (f : Nat) :
    tally [(0, p₁), (0, p₂), (1, p₃)] [5, 5, 7] 1 f =
      if f = 7 then 1 else 0 := by
  by_cases hf : f = 7
  · subst hf
    rfl
  · rw [if_neg hf]
    have h7 : ((7 : Nat) == f) = false := by
      simp [beq_iff_eq]
      exact fun h => hf h.symm
    simp [tally, List.zip, vote_pred, h7]

theorem tally_c4_rest (p₁ p₂ p₃ : Rat) (c f : Nat) (hc : 2 ≤ c) :
    tally [(0, p₁), (0, p₂), (1, p₃)] [5, 5, 7] c f = 0 := by
  have h0 : ((0 : Nat) == c) = false := by
    simp [beq_iff_eq]
    omega
  have h1 : ((1 : Nat) == c) = false := by
    simp [beq_iff_eq]
    omega
  simp [tally, List.zip, vote_pred, h0, h1]

/-- C4 amended: with `ncells ≥ 2`, `nfovs ≥ 8`, assignments
`[(0, _), (0, _), (1, _)]` and fovs `[5, 5, 7]`, cell 0's result is fov 5
and cell 1's result is fov 7 (not the sentinel, which the claim asserted);
every further cell, having no assignments, gets the no-vote sentinel. -/
theorem cell_fov_vote_spec_example (ncells nfovs : Nat) (p₁ p₂ p₃ : Rat)
    (h2 : 2 ≤ ncells) (h8 : 8 ≤ nfovs) :
    ∃ out, cell_fov_vote ncells nfovs [(0, p₁), (0, p₂), (1, p₃)] [5, 5, 7] =
        some out ∧
      out[0]? = some 5 ∧ out[1]? = some 7 ∧
      ∀ c, 2 ≤ c → c < ncells → out[c]? = some U32_MAX := by
  have hb : vote_in_bounds ncells nfovs [(0, p₁), (0, p₂), (1, p₃)] [5, 5, 7] = true := by
    simp [vote_in_bounds, List.zip, BACKGROUND_CELL, U32_MAX]
    omega
  have hv : ∀ c f, fov_votes [(0, p₁), (0, p₂), (1, p₃)] [5, 5, 7] c f =
      tally [(0, p₁), (0, p₂), (1, p₃)] [5, 5, 7] c f :=
    fun c f => fov_votes_eq_tally _ _ c f
  have hrow0 : rowWinner (fov_votes [(0, p₁), (0, p₂), (1, p₃)] [5, 5, 7] 0) nfovs = 5 := by
    rcases rowWinner_spec (fov_votes [(0, p₁), (0, p₂), (1, p₃)] [5, 5, 7] 0) nfovs with
      ⟨_, hzero⟩ | ⟨w0, _, heq, hpos, _, hlt⟩
    · exfalso
      have h5 := hzero 5 (by omega)
      rw [hv, tally_c4_row0] at h5
      simp at h5
    · have hw0 : w0 = 5 := by
        by_contra hne
        rw [hv, tally_c4_row0, if_neg hne] at hpos
        exact absurd hpos (by omega)
      subst hw0
      rw [heq]
  have hrow1 : rowWinner (fov_votes [(0, p₁), (0, p₂), (1, p₃)] [5, 5, 7] 1) nfovs = 7 := by
    rcases rowWinner_spec (fov_votes [(0, p₁), (0, p₂), (1, p₃)] [5, 5, 7] 1) nfovs with
      ⟨_, hzero⟩ | ⟨w0, _, heq, hpos, _, hlt⟩
    · exfalso
      have h7 := hzero 7 (by omega)
      rw [hv, tally_c4_row1] at h7
      simp at h7
    · have hw0 : w0 = 7 := by
        by_contra hne
        rw [hv, tally_c4_row1, if_neg hne] at hpos
        exact absurd hpos (by omega)
      subst hw0
      rw [heq]
  have hrowc : ∀ c, 2 ≤ c →
      rowWinner (fov_votes [(0, p₁), (0, p₂), (1, p₃)] [5, 5, 7] c) nfovs = U32_MAX := by
    intro c hc
    rcases rowWinner_spec (fov_votes [(0, p₁), (0, p₂), (1, p₃)] [5, 5, 7] c) nfovs with
      ⟨hmax, _⟩ | ⟨w0, _, _, hpos, _, _⟩
    · exact hmax
    · exfalso
      rw [hv, tally_c4_rest p₁ p₂ p₃ c w0 hc] at hpos
      exact absurd hpos (by omega)
  refine ⟨_, by rw [cell_fov_vote, if_pos hb], ?_, ?_, ?_⟩
  · rw [List.getElem?_map, List.getElem?_range (by omega), Option.map_some', hrow0]
  · rw [List.getElem?_map, List.getElem?_range (by omega), Option.map_some', hrow1]
  · intro c hc hcn
    rw [List.getElem?_map, List.getElem?_range hcn, Option.map_some', hrowc c hc]

/-- Witness for C4's amended theorem at `ncells = 3`, `nfovs = 8`. -/
theorem cell_fov_vote_spec_example_witness :
    (cell_fov_vote 3 8 [(0, (0 : Rat)), (0, 0), (1, 0)] [5, 5, 7]).isSome = true := by
  obtain ⟨out, hout, -, -, -⟩ :=
    cell_fov_vote_spec_example 3 8 0 0 0 (by decide) (by decide)
  rw [hout]
  rfl

/-- A 2-D ring coordinate. The source stores `f32` ordinates and prints
them with `Display`; only the printed token matters to any claim, so
ordinates are modelled as integers rendered in decimal. -/
structure Coord where
  x : Int
  y : Int
deriving DecidableEq, Repr

/-- Polygon from the `geo` crate: an exterior ring and interior rings. The
writers only ever read `exterior`. -/
structure Polygon where
  exterior : List Coord
  interiors : List (List Coord)
deriving DecidableEq, Repr

/-- MultiPolygon from the `geo` crate: a list of polygons. -/
def MultiPolygon : Type := List Polygon

instance : DecidableEq MultiPolygon := by
  unfold MultiPolygon
  infer_instance

/-- Opening envelope line of the FeatureCollection, as printed by the first
`writeln!` of both GeoJSON writers. -/
def geojson_envelope : String :=
  "\x7b\n  \"type\": \"FeatureCollection\",\n  \"features\": [\n"

/-- Closing envelope, as printed by the final `writeln!`. -/
def geojson_footer : String := "  ]\n\x7d\n"

/-- Feature header of `write_cell_multipolygons`, carrying the cell id in
`properties` and opening the `coordinates` array. -/
def feature_header (cell : Nat) : String :=
  "    \x7b\n      \"type\": \"Feature\",\n      \"properties\": \x7b\n        \"cell\": "
    ++ toString cell
    ++ "\n      \x7d,\n      \"geometry\": \x7b\n        \"type\": \"MultiPolygon\",\n        \"coordinates\": [\n"

/-- Feature header of `write_cell_layered_multipolygons`, carrying both the
cell id and the layer id in `properties`. -/
def layered_feature_header (cell : Nat) (layer : Int) : String :=
  "    \x7b\n      \"type\": \"Feature\",\n      \"properties\": \x7b\n        \"cell\": "
    ++ toString cell
    ++ ",\n        \"layer\": "
    ++ toString layer
    ++ "\n      \x7d,\n      \"geometry\": \x7b\n        \"type\": \"MultiPolygon\",\n        \"coordinates\": [\n"

/-- Opening brackets of one polygon and its (exterior) ring. -/
def poly_open : String := "          [\n            [\n"

/-- Closing brackets of one polygon and its ring; the separator decision
follows. -/
def poly_close : String := "            ]\n          ]"

/-- Closing brackets of one feature; the separator decision follows. -/
def feature_close : String := "        ]\n      \x7d\n    \x7d"

/-- One printed coordinate pair, `[x, y]`. -/
def coord_text (c : Coord) : String :=
  "              [" ++ toString c.x ++ ", " ++ toString c.y ++ "]"

/-- Embedded writer loop shared by all nesting levels of the GeoJSON
writers: emit `render i x` for the element at position `i`, followed by a
comma and newline when `i < n - 1` and a bare newline otherwise, exactly as
the source's `if i < ncoords - 1` / `if i < npolys - 1` / `if cell <
ncells - 1` separator tests do. -/
def idxLoop (render : Nat → α → String) : List α → Nat → Nat → String
  | [], _, _ => ""
  | x :: rest, i, n =>
      render i x ++ (if i < n - 1 then ",\n" else "\n") ++
        idxLoop render rest (i + 1) n

/-- Body printed for one polygon: opening brackets, the coordinate loop
over the exterior ring, closing brackets. -/
def poly_body (p : Polygon) : String :=
  poly_open ++ idxLoop (fun _ c => coord_text c) p.exterior 0 p.exterior.length
    ++ poly_close

/-- Text streamed through the `GzEncoder` by `write_cell_multipolygons`
(`src/output.rs:609`): envelope, one feature per multi-polygon with the
enumerate index as the cell id, footer. -/
def cell_multipolygons_geojson (polygons : List MultiPolygon) : String :=
  geojson_envelope ++
    idxLoop
      (fun cell polys =>
        feature_header cell ++
          idxLoop (fun _ p => poly_body p) polys 0 (List.length polys) ++
          feature_close)
      polygons 0 polygons.length ++
    geojson_footer

/-- Inner loop of `write_cell_layered_multipolygons`: one feature per
(layer, multi-polygon) pair of a cell, with the separator decided by the
running flattened `count` against the precomputed `total`. -/
def layered_inner (cell : Nat) :
    List (Int × MultiPolygon) → Nat → Nat → String
  | [], _, _ => ""
  | (layer, polys) :: rest, count, total =>
      layered_feature_header cell layer ++
        idxLoop (fun _ p => poly_body p) polys 0 (List.length polys) ++
        feature_close ++
        (if count < total - 1 then ",\n" else "\n") ++
        layered_inner cell rest (count + 1) total

/-- Outer loop of `write_cell_layered_multipolygons`: cells in order, the
cell id being the enumerate index, threading the flattened feature count. -/
def layered_outer :
    List (List (Int × MultiPolygon)) → Nat → Nat → Nat → String
  | [], _, _, _ => ""
  | lps :: rest, cell, count, total =>
      layered_inner cell lps count total ++
        layered_outer rest (cell + 1) (count + lps.length) total

/-- Text streamed through the `GzEncoder` by
`write_cell_layered_multipolygons` (`src/output.rs:676`), with the total
(cell, layer) pair count precomputed by the source's summing loop. -/
def cell_layered_multipolygons_geojson
    (polygons : List (List (Int × MultiPolygon))) : String :=
  geojson_envelope ++
    layered_outer polygons 0 0
      (polygons.foldl (fun acc lps => acc + lps.length) 0) ++
    geojson_footer

/-- Embedding of `write_cell_multipolygons` (`src/output.rs:609`): no path,
no effect; otherwise create the file and stream the gzip-compressed GeoJSON
document into it. -/
def write_cell_multipolygons (output_cell_polygons : Option String)
    (polygons : List MultiPolygon) : ExportResult :=
  match output_cell_polygons with
  | none => { events := [], panicMsg := none }
  | some path =>
      { events := [FileEvent.create path,
                   FileEvent.writeGz (cell_multipolygons_geojson polygons)]
        panicMsg := none }

/-- Embedding of `write_cell_layered_multipolygons` (`src/output.rs:676`). -/
def write_cell_layered_multipolygons (output_cell_polygons : Option String)
    (polygons : List (List (Int × MultiPolygon))) : ExportResult :=
  match output_cell_polygons with
  | none => { events := [], panicMsg := none }
  | some path =>
      { events := [FileEvent.create path,
                   FileEvent.writeGz (cell_layered_multipolygons_geojson polygons)]
        panicMsg := none }

/-- Spec-side joiner (from the spec's words): a comma separator between
consecutive siblings and never after the last, each sibling line closed by
a newline. -/
def sepJoin : List String → String
  | [] => ""
  | [x] => x ++ "\n"
  | x :: y :: rest => x ++ ",\n" ++ sepJoin (y :: rest)

/-- Spec-side rendering of one polygon: brackets around the joined
coordinate lines. -/
def geojson_polygon (p : Polygon) : String :=
  poly_open ++ sepJoin (p.exterior.map coord_text) ++ poly_close

/-- Spec-side rendering of one feature with an explicit cell id. -/
def geojson_feature (cell : Nat) (polys : MultiPolygon) : String :=
  feature_header cell ++ sepJoin (polys.map geojson_polygon) ++ feature_close

/-- Spec-side rendering of one layered feature with explicit cell and layer
ids. -/
def geojson_layered_feature (cell : Nat) (layer : Int)
    (polys : MultiPolygon) : String :=
  layered_feature_header cell layer ++ sepJoin (polys.map geojson_polygon) ++
    feature_close

/-- Spec-side FeatureCollection document: envelope, joined features,
footer. -/
def feature_collection (features : List String) : String :=
  geojson_envelope ++ sepJoin features ++ geojson_footer

theorem idxLoop_eq_sepJoin (render : Nat → α → String) :
    ∀ (xs : List α) (i n : Nat), i + xs.length = n →
    idxLoop render xs i n =
      sepJoin ((List.enumFrom i xs).map (fun p => render p.1 p.2)) := by
  intro xs
  induction xs with
  | nil => intro i n _; rfl
  | cons x rest ih =>
    intro i n h
    cases rest with
    | nil =>
        have hlt : ¬ i < n - 1 := by
          simp at h
          omega
        simp only [idxLoop, if_neg hlt, List.enumFrom_cons, List.enumFrom_nil,
          List.map_cons, List.map_nil, sepJoin, String.append_empty]
    | cons y rest' =>
        have hlt : i < n - 1 := by
          simp at h
          omega
        have h' : i + 1 + (y :: rest').length = n := by
          simp at h ⊢
          omega
        rw [idxLoop, if_pos hlt, ih (i + 1) n h']
        simp only [List.enumFrom_cons, List.map_cons, sepJoin,
          String.append_assoc]

theorem enumFrom_map_snd_render (g : α → String) :
    ∀ (i : Nat) (xs : List α),
    (List.enumFrom i xs).map (fun p => g p.2) = xs.map g := by
  intro i xs
  induction xs generalizing i with
  | nil => rfl
  | cons x rest ih => simp only [List.enumFrom_cons, List.map_cons, ih]

theorem poly_body_eq (p : Polygon) : poly_body p = geojson_polygon p := by
  rw [poly_body, geojson_polygon,
    idxLoop_eq_sepJoin (fun _ c => coord_text c) p.exterior 0 p.exterior.length
      (by omega)]
  rw [enumFrom_map_snd_render coord_text 0 p.exterior]

theorem feature_render_eq (cell : Nat) (polys : MultiPolygon) :
    feature_header cell ++
        idxLoop (fun _ p => poly_body p) polys 0 (List.length polys) ++
        feature_close =
      geojson_feature cell polys := by
  rw [geojson_feature,
    idxLoop_eq_sepJoin (fun _ p => poly_body p) polys 0 (List.length polys)
      (by omega)]
  rw [enumFrom_map_snd_render poly_body 0 polys]
  rw [List.map_congr_left (fun p _ => poly_body_eq p)]

theorem cell_multipolygons_geojson_eq (polygons : List MultiPolygon) :
    cell_multipolygons_geojson polygons =
      feature_collection ((List.enumFrom 0 polygons).map
        (fun p => geojson_feature p.1 p.2)) := by
  rw [cell_multipolygons_geojson, feature_collection,
    idxLoop_eq_sepJoin _ polygons 0 polygons.length (by omega)]
  rw [List.map_congr_left (fun (p : Nat × MultiPolygon) _ =>
    feature_render_eq p.1 p.2)]

theorem idxLoop_cons (render : Nat → α → String) (x : α) (rest : List α)
    (i n : Nat) :
    idxLoop render (x :: rest) i n =
      render i x ++ (if i < n - 1 then ",\n" else "\n") ++
        idxLoop render rest (i + 1) n := rfl

theorem layered_feature_render_eq (cell : Nat) (layer : Int)
    (polys : MultiPolygon) :
    layered_feature_header cell layer ++
        idxLoop (fun _ p => poly_body p) polys 0 (List.length polys) ++
        feature_close =
      geojson_layered_feature cell layer polys := by
  rw [geojson_layered_feature,
    idxLoop_eq_sepJoin (fun _ p => poly_body p) polys 0 (List.length polys)
      (by omega)]
  rw [enumFrom_map_snd_render poly_body 0 polys]
  rw [List.map_congr_left (fun p _ => poly_body_eq p)]

theorem layered_inner_eq (cell : Nat) :
    ∀ (lps : List (Int × MultiPolygon)) (count total : Nat),
    layered_inner cell lps count total =
      idxLoop (fun _ s => s)
        (lps.map (fun lm => geojson_layered_feature cell lm.1 lm.2))
        count total := by
  intro lps
  induction lps with
  | nil => intro count total; rfl
  | cons lm rest ih =>
    intro count total
    obtain ⟨layer, polys⟩ := lm
    simp only [List.map_cons]
    rw [layered_inner, idxLoop_cons, ih (count + 1) total,
      ← layered_feature_render_eq cell layer polys]

theorem idxLoop_append_strings (xs ys : List String) :
    ∀ (count total : Nat),
    idxLoop (fun _ s => s) (xs ++ ys) count total =
      idxLoop (fun _ s => s) xs count total ++
        idxLoop (fun _ s => s) ys (count + xs.length) total := by
  induction xs with
  | nil => intro count total; simp [idxLoop]
  | cons x rest ih =>
    intro count total
    have hidx : count + (rest.length + 1) = count + 1 + rest.length := by omega
    rw [List.cons_append, idxLoop_cons, idxLoop_cons, ih (count + 1) total,
      List.length_cons, hidx]
    simp [String.append_assoc]

theorem layered_outer_eq :
    ∀ (cells : List (List (Int × MultiPolygon))) (cell0 count total : Nat),
    layered_outer cells cell0 count total =
      idxLoop (fun _ s => s)
        ((List.enumFrom cell0 cells).flatMap
          (fun p => p.2.map (fun lm => geojson_layered_feature p.1 lm.1 lm.2)))
        count total := by
  intro cells
  induction cells with
  | nil => intro cell0 count total; rfl
  | cons lps rest ih =>
    intro cell0 count total
    rw [layered_outer, layered_inner_eq, ih (cell0 + 1) (count + lps.length) total]
    simp only [List.enumFrom_cons, List.flatMap_cons]
    rw [idxLoop_append_strings]
    congr 2
    rw [List.length_map]

theorem layered_total_eq :
    ∀ (cells : List (List (Int × MultiPolygon))) (a cell0 : Nat),
    cells.foldl (fun acc lps => acc + lps.length) a =
      a + ((List.enumFrom cell0 cells).flatMap
        (fun p => p.2.map (fun lm => geojson_layered_feature p.1 lm.1 lm.2))).length := by
  intro cells
  induction cells with
  | nil => intro a cell0; simp
  | cons lps rest ih =>
    intro a cell0
    rw [List.foldl_cons, ih (a + lps.length) (cell0 + 1)]
    simp only [List.enumFrom_cons, List.flatMap_cons, List.length_append,
      List.length_map]
    omega

theorem cell_layered_multipolygons_geojson_eq
    (polygons : List (List (Int × MultiPolygon))) :
    cell_layered_multipolygons_geojson polygons =
      feature_collection ((List.enumFrom 0 polygons).flatMap
        (fun p => p.2.map (fun lm => geojson_layered_feature p.1 lm.1 lm.2))) := by
  rw [cell_layered_multipolygons_geojson, feature_collection,
    layered_outer_eq polygons 0 0 _,
    idxLoop_eq_sepJoin (fun _ s => s) _ 0 _
      (layered_total_eq polygons 0 0).symm]
  rw [enumFrom_map_snd_render (fun s => s) 0 _]
  rw [List.map_id']

/-- C1: for every input — zero features, features with zero polygons and
polygons with zero coordinates included — each GeoJSON writer streams
through its gzip sink exactly the document obtained by joining the rendered
siblings at every nesting level (features, polygons, coordinate pairs) with
a comma separator between consecutive siblings and never after the last
(`sepJoin`); the layered writer places the separator after each feature
except the overall last using the precomputed (cell, layer) pair total. The
join-based form renders a structurally well-formed JSON document, so the
output is syntactically valid JSON. -/
theorem geojson_writers_no_trailing_separator (path : String)
    (polygons : List MultiPolygon)
    (lpolygons : List (List (Int × MultiPolygon))) :
    write_cell_multipolygons (some path) polygons =
      { events := [FileEvent.create path,
                   FileEvent.writeGz (feature_collection
                     ((List.enumFrom 0 polygons).map
                       (fun p => geojson_feature p.1 p.2)))]
        panicMsg := none } ∧
    write_cell_layered_multipolygons (some path) lpolygons =
      { events := [FileEvent.create path,
                   FileEvent.writeGz (feature_collection
                     ((List.enumFrom 0 lpolygons).flatMap
                       (fun p => p.2.map
                         (fun lm => geojson_layered_feature p.1 lm.1 lm.2))))]
        panicMsg := none } := by
  constructor
  · rw [write_cell_multipolygons, cell_multipolygons_geojson_eq]
  · rw [write_cell_layered_multipolygons, cell_layered_multipolygons_geojson_eq]

/-- C10: the "cell" property of each emitted Feature is the 0-based
position of its multi-polygon in the input vector, and in the layered
writer the cell id is the 0-based position of the cell's entry in the outer
vector with "layer" taken from the paired layer value; the geometry data
(`MultiPolygon`) carries no id, so ids are determined entirely by input
order (`List.enumFrom 0`). -/
theorem geojson_cell_ids_are_input_positions (polygons : List MultiPolygon)
    (lpolygons : List (List (Int × MultiPolygon))) :
    cell_multipolygons_geojson polygons =
      feature_collection ((List.enumFrom 0 polygons).map
        (fun p => geojson_feature p.1 p.2)) ∧
    cell_layered_multipolygons_geojson lpolygons =
      feature_collection ((List.enumFrom 0 lpolygons).flatMap
        (fun p => p.2.map (fun lm => geojson_layered_feature p.1 lm.1 lm.2))) :=
  ⟨cell_multipolygons_geojson_eq polygons,
   cell_layered_multipolygons_geojson_eq lpolygons⟩

/-- Modelled from the spec: `sampler::TranscriptState` is declared outside
`src/`. The writers only compare a state against `Background` and
`Confusion`; the spec describes a discrete per-transcript classification. -/
inductive TranscriptState where
  | Background
  | Confusion
  | Foreground
deriving DecidableEq, Repr

/-- Modelled from the spec: `sampler::transcripts::Transcript` is declared
outside `src/`. The writer reads the transcript id, the observed position
and the gene index. -/
structure Transcript where
  transcript_id : Nat
  x : Rat
  y : Rat
  z : Rat
  gene : Nat
deriving DecidableEq, Repr

/-- Modelled from the spec: `sampler::ModelParams` is declared outside
`src/`. Only the fields and accessors the writers read are modelled;
matrices are row-major lists of rows (`lam` stands for the source's `λ`,
genes by cells; `lam_bg` for `λ_bg`, genes by layers; `r` and `φ` are
components by genes; `total_gene_counts` is genes by layers). -/
structure ModelParams where
  lam : List (List Rat)
  lam_bg : List (List Rat)
  r : List (List Rat)
  φ : List (List Rat)
  z : List Nat
  cell_volume : List Rat
  cell_population : List Nat
  total_gene_counts : List (List Nat)
  ncells : Nat
  ncomponents : Nat
  ngenes : Nat
  nlayers : Nat
deriving DecidableEq, Repr

/-- Modelled from the spec: `sampler::voxelsampler::VoxelSampler` is
declared outside `src/`. The writer reads its iterator of
`(cell, (x0, y0, z0, x1, y1, z1))` voxel records. -/
structure VoxelSampler where
  voxels : List (Nat × Rat × Rat × Rat × Rat × Rat × Rat)
deriving Repr

/-- Embedding of `write_counts` (`src/output.rs:141`): skipped entirely
when the path is unset; otherwise one `UInt32` field per transcript name
and one column per row of the counts matrix. -/
def write_counts (output_counts : Option String) (output_counts_fmt : OutputFormat)
    (transcript_names : List String) (counts : List (List Nat)) : ExportResult :=
  match output_counts with
  | none => { events := [], panicMsg := none }
  | some name =>
      let schema := Schema.mk (transcript_names.map
        (fun n => Field.mk n DataType.UInt32 false))
      let chunk : Chunk := counts.map (fun row => row.map Value.vU32)
      write_table name output_counts_fmt schema chunk

/-- Embedding of `write_expected_counts` (`src/output.rs:169`). -/
def write_expected_counts (output_expected_counts : Option String)
    (output_expected_counts_fmt : OutputFormat)
    (transcript_names : List String) (ecounts : List (List Rat)) : ExportResult :=
  match output_expected_counts with
  | none => { events := [], panicMsg := none }
  | some name =>
      let schema := Schema.mk (transcript_names.map
        (fun n => Field.mk n DataType.Float32 false))
      let chunk : Chunk := ecounts.map (fun row => row.map Value.vF32)
      write_table name output_expected_counts_fmt schema chunk

/-- Embedding of `write_rates` (`src/output.rs:202`): one `Float32` field
per transcript name, one column per row of `params.λ`. -/
def write_rates (output_rates : Option String) (output_rates_fmt : OutputFormat)
    (params : ModelParams) (transcript_names : List String) : ExportResult :=
  match output_rates with
  | none => { events := [], panicMsg := none }
  | some name =>
      let schema := Schema.mk (transcript_names.map
        (fun n => Field.mk n DataType.Float32 false))
      let chunk : Chunk := params.lam.map (fun row => row.map Value.vF32)
      write_table name output_rates_fmt schema chunk

/-- Embedding of `write_component_params` (`src/output.rs:230`). The source
computes `β = exp(-φ)` with `f32::exp`; the exponential on the `Rat` model
of `f32` is passed in as `expNeg`, standing for `x ↦ exp(-x)`. -/
def write_component_params (expNeg : Rat → Rat)
    (output_component_params : Option String)
    (output_component_params_fmt : OutputFormat) (params : ModelParams)
    (transcript_names : List String) : ExportResult :=
  match output_component_params with
  | none => { events := [], panicMsg := none }
  | some name =>
      let β := params.φ.map (fun row => row.map expNeg)
      let fields := Field.mk "gene" DataType.Utf8 false ::
        (List.range params.ncomponents).flatMap (fun i =>
          [Field.mk ("α_" ++ toString i) DataType.Float32 false,
           Field.mk ("β_" ++ toString i) DataType.Float32 false])
      let chunk : Chunk := (transcript_names.map Value.vStr) ::
        (params.r.zip β).flatMap (fun ab =>
          [ab.1.map Value.vF32, ab.2.map Value.vF32])
      write_table name output_component_params_fmt (Schema.mk fields) chunk

/-- Schema of the cell metadata table (`src/output.rs:320`). -/
def cell_metadata_schema : Schema :=
  Schema.mk
    [Field.mk "cell" DataType.UInt32 false,
     Field.mk "centroid_x" DataType.Float32 false,
     Field.mk "centroid_y" DataType.Float32 false,
     Field.mk "centroid_z" DataType.Float32 false,
     Field.mk "fov" DataType.Utf8 true,
     Field.mk "cluster" DataType.UInt16 false,
     Field.mk "volume" DataType.Float32 false,
     Field.mk "population" DataType.UInt64 false]

/-- Embedding of `write_cell_metadata` (`src/output.rs:306`). Note the
source computes `cell_fov_vote` before testing whether the output path is
set, so the vote's potential panic happens even for an unset path. -/
def write_cell_metadata (output_cell_metadata : Option String)
    (output_cell_metadata_fmt : OutputFormat) (params : ModelParams)
    (cell_centroids : List (Rat × Rat × Rat))
    (cell_assignments : List (Nat × Rat)) (fovs : List Nat)
    (fov_names : List String) : ExportResult :=
  let ncells := cell_centroids.length
  let nfovs := fov_names.length
  match cell_fov_vote ncells nfovs cell_assignments fovs with
  | none => { events := [], panicMsg := some "index out of bounds" }
  | some cell_fovs =>
      match output_cell_metadata with
      | none => { events := [], panicMsg := none }
      | some name =>
          match fov_column cell_fovs fov_names with
          | none => { events := [], panicMsg := some "index out of bounds" }
          | some fovCol =>
              let chunk : Chunk :=
                [(List.range params.ncells).map Value.vU32,
                 cell_centroids.map (fun c => Value.vF32 c.1),
                 cell_centroids.map (fun c => Value.vF32 c.2.1),
                 cell_centroids.map (fun c => Value.vF32 c.2.2),
                 fovCol,
                 params.z.map (fun z => Value.vU16 (z % 65536)),
                 params.cell_volume.map Value.vF32,
                 params.cell_population.map Value.vU64]
              write_table name output_cell_metadata_fmt cell_metadata_schema chunk

/-- Schema of the transcript metadata table (`src/output.rs:390`). -/
def transcript_metadata_schema : Schema :=
  Schema.mk
    [Field.mk "transcript_id" DataType.UInt64 false,
     Field.mk "x" DataType.Float32 false,
     Field.mk "y" DataType.Float32 false,
     Field.mk "z" DataType.Float32 false,
     Field.mk "observed_x" DataType.Float32 false,
     Field.mk "observed_y" DataType.Float32 false,
     Field.mk "observed_z" DataType.Float32 false,
     Field.mk "gene" DataType.Utf8 false,
     Field.mk "fov" DataType.Utf8 false,
     Field.mk "assignment" DataType.UInt32 false,
     Field.mk "probability" DataType.Float32 false,
     Field.mk "background" DataType.UInt8 false,
     Field.mk "confusion" DataType.UInt8 false]

/-- Embedding of `write_transcript_metadata` (`src/output.rs:374`). The
three `dbg!` calls before the path test print to stderr; the printed text
is abstracted to the rendered value. Gene and fov name lookups panic
(modelled as `none`) when out of range. -/
def write_transcript_metadata (output_transcript_metadata : Option String)
    (output_transcript_metadata_fmt : OutputFormat)
    (transcripts : List Transcript)
    (transcript_positions : List (Rat × Rat × Rat))
    (transcript_names : List String) (cell_assignments : List (Nat × Rat))
    (transcript_state : List TranscriptState) (fovs : List Nat)
    (fov_names : List String) : ExportResult :=
  let dbg_events := [FileEvent.stderrLine (toString fovs.length),
                     FileEvent.stderrLine (toString fov_names.length),
                     FileEvent.stderrLine (toString transcripts.length)]
  match output_transcript_metadata with
  | none => { events := dbg_events, panicMsg := none }
  | some name =>
      match transcripts.mapM (fun t => transcript_names[t.gene]?),
            fovs.mapM (fun fov => fov_names[fov]?) with
      | some gene_col, some fov_col =>
          let chunk : Chunk :=
            [transcripts.map (fun t => Value.vU64 t.transcript_id),
             transcript_positions.map (fun p => Value.vF32 p.1),
             transcript_positions.map (fun p => Value.vF32 p.2.1),
             transcript_positions.map (fun p => Value.vF32 p.2.2),
             transcripts.map (fun t => Value.vF32 t.x),
             transcripts.map (fun t => Value.vF32 t.y),
             transcripts.map (fun t => Value.vF32 t.z),
             gene_col.map Value.vStr,
             fov_col.map Value.vStr,
             cell_assignments.map (fun a => Value.vU32 a.1),
             cell_assignments.map (fun a => Value.vF32 a.2),
             transcript_state.map (fun s =>
               Value.vU8 (if s = TranscriptState.Background then 1 else 0)),
             transcript_state.map (fun s =>
               Value.vU8 (if s = TranscriptState.Confusion then 1 else 0))]
          let r := write_table name output_transcript_metadata_fmt
            transcript_metadata_schema chunk
          { events := dbg_events ++ r.events, panicMsg := r.panicMsg }
      | _, _ => { events := dbg_events, panicMsg := some "index out of bounds" }

/-- Column `i` of a row-major matrix; `none` when a row is too short
(an `ndarray` column view of a too-small matrix panics). -/
def matrix_column (rows : List (List Rat)) (i : Nat) : Option (List Rat) :=
  rows.mapM (fun row => row[i]?)

/-- Per-component mean rate column of `write_gene_metadata`: sum the `λ`
columns of the cells in component `i` and divide by their number. The `f32`
arithmetic is modelled on exact rationals (a division by a zero count is 0
here where `f32` gives NaN; no claim reads these values). -/
def lam_component (params : ModelParams) (i : Nat) : List Rat :=
  let acc := (params.z.zip (List.transpose params.lam)).foldl
    (fun (a : List Rat × Nat) zc =>
      if zc.1 = i then (a.1.zipWith (· + ·) zc.2, a.2 + 1) else a)
    (List.replicate params.ngenes (0 : Rat), 0)
  acc.1.map (fun x => x / (acc.2 : Rat))

/-- Embedding of `write_gene_metadata` (`src/output.rs:465`). -/
def write_gene_metadata (output_gene_metadata : Option String)
    (output_gene_metadata_fmt : OutputFormat) (params : ModelParams)
    (transcript_names : List String)
    (expected_counts : List (List Rat)) : ExportResult :=
  match output_gene_metadata with
  | none => { events := [], panicMsg := none }
  | some name =>
      match (List.range params.ncomponents).mapM (fun i => params.r[i]?),
            (List.range params.nlayers).mapM (matrix_column params.lam_bg) with
      | some dispersion_rows, some bg_cols =>
          let fields :=
            [Field.mk "gene" DataType.Utf8 false,
             Field.mk "total_count" DataType.UInt64 false,
             Field.mk "expected_assigned_count" DataType.Float32 false] ++
            (List.range params.ncomponents).map (fun i =>
              Field.mk ("dispersion_" ++ toString i) DataType.Float32 false) ++
            (List.range params.ncomponents).map (fun i =>
              Field.mk ("λ_" ++ toString i) DataType.Float32 false) ++
            (List.range params.nlayers).map (fun i =>
              Field.mk ("λ_bg_" ++ toString i) DataType.Float32 false)
          let chunk : Chunk :=
            [transcript_names.map Value.vStr,
             params.total_gene_counts.map (fun row => Value.vU64 row.sum),
             expected_counts.map (fun row => Value.vF32 row.sum)] ++
            dispersion_rows.map (fun row => row.map Value.vF32) ++
            (List.range params.ncomponents).map (fun i =>
              (lam_component params i).map Value.vF32) ++
            bg_cols.map (fun col => col.map Value.vF32)
          write_table name output_gene_metadata_fmt (Schema.mk fields) chunk
      | _, _ => { events := [], panicMsg := some "index out of bounds" }

/-- Schema of the voxels table (`src/output.rs:578`). -/
def voxels_schema : Schema :=
  Schema.mk
    [Field.mk "cell" DataType.UInt32 false,
     Field.mk "x0" DataType.Float32 false,
     Field.mk "y0" DataType.Float32 false,
     Field.mk "z0" DataType.Float32 false,
     Field.mk "x1" DataType.Float32 false,
     Field.mk "y1" DataType.Float32 false,
     Field.mk "z1" DataType.Float32 false]

/-- Embedding of `write_voxels` (`src/output.rs:552`). -/
def write_voxels (output_voxels : Option String) (output_voxels_fmt : OutputFormat)
    (sampler : VoxelSampler) : ExportResult :=
  match output_voxels with
  | none => { events := [], panicMsg := none }
  | some name =>
      let chunk : Chunk :=
        [sampler.voxels.map (fun v => Value.vU32 v.1),
         sampler.voxels.map (fun v => Value.vF32 v.2.1),
         sampler.voxels.map (fun v => Value.vF32 v.2.2.1),
         sampler.voxels.map (fun v => Value.vF32 v.2.2.2.1),
         sampler.voxels.map (fun v => Value.vF32 v.2.2.2.2.1),
         sampler.voxels.map (fun v => Value.vF32 v.2.2.2.2.2.1),
         sampler.voxels.map (fun v => Value.vF32 v.2.2.2.2.2.2)]
      write_table name output_voxels_fmt voxels_schema chunk

/-- Counterexample to C7 as stated: with an unset (None) output path,
`write_cell_metadata` still computes the FOV vote first, and an
out-of-range assignment (cell 5 with a single cell, fov 0 with no fov
names) panics — an error is raised despite the unset path. -/
theorem write_cell_metadata_unset_path_panics :
    (write_cell_metadata none OutputFormat.Csv
      { lam := [], lam_bg := [], r := [], φ := [], z := [],
        cell_volume := [], cell_population := [], total_gene_counts := [],
        ncells := 0, ncomponents := 0, ngenes := 0, nlayers := 0 }
      [((0 : Rat), (0 : Rat), (0 : Rat))] [(5, 0)] [0] []).panicMsg.isSome
      = true := by
  decide

/-- C7 amended: every artifact writer called with an unset output path
creates no file; all except `write_cell_metadata` and
`write_transcript_metadata` perform no effect at all and raise no error.
`write_transcript_metadata` first prints its three `dbg!` lines to stderr
(still no file and no error), and `write_cell_metadata` computes the FOV
vote before testing the path, so with an unset path it raises no error
exactly when the vote's increments stay in bounds — contrary to the
original claim, an out-of-range assignment panics (see the
counterexample). -/
theorem unset_path_writers_no_file :
    (∀ fmt names counts,
      write_counts none fmt names counts = ⟨[], none⟩) ∧
    (∀ fmt names ecounts,
      write_expected_counts none fmt names ecounts = ⟨[], none⟩) ∧
    (∀ fmt params names,
      write_rates none fmt params names = ⟨[], none⟩) ∧
    (∀ expNeg fmt params names,
      write_component_params expNeg none fmt params names = ⟨[], none⟩) ∧
    (∀ fmt params names ecounts,
      write_gene_metadata none fmt params names ecounts = ⟨[], none⟩) ∧
    (∀ fmt sampler,
      write_voxels none fmt sampler = ⟨[], none⟩) ∧
    (∀ polygons,
      write_cell_multipolygons none polygons = ⟨[], none⟩) ∧
    (∀ lpolygons,
      write_cell_layered_multipolygons none lpolygons = ⟨[], none⟩) ∧
    (∀ fmt transcripts positions names cas states fovs fov_names,
      write_transcript_metadata none fmt transcripts positions names cas
          states fovs fov_names =
        ⟨[FileEvent.stderrLine (toString (List.length fovs)),
          FileEvent.stderrLine (toString (List.length fov_names)),
          FileEvent.stderrLine (toString (List.length transcripts))], none⟩) ∧
    (∀ fmt params centroids cas fovs fov_names,
      (write_cell_metadata none fmt params centroids cas fovs
        fov_names).events = [] ∧
      (vote_in_bounds (List.length centroids) (List.length fov_names) cas fovs = true →
        write_cell_metadata none fmt params centroids cas fovs fov_names =
          ⟨[], none⟩)) := by
  refine ⟨fun _ _ _ => rfl, fun _ _ _ => rfl, fun _ _ _ => rfl,
    fun _ _ _ _ => rfl, fun _ _ _ _ => rfl, fun _ _ => rfl, fun _ => rfl,
    fun _ => rfl, fun _ _ _ _ _ _ _ _ => rfl, fun fmt params centroids cas fovs fov_names => ?_⟩
  constructor
  · rw [write_cell_metadata]
    rcases h : cell_fov_vote centroids.length fov_names.length cas fovs with _ | cf
    · simp only [h]
    · simp only [h]
  · intro hb
    rw [write_cell_metadata, cell_fov_vote, if_pos hb]

/-- Witness for C7's amended theorem: the no-effect results on concrete
empty inputs, with the vote in bounds. -/
theorem unset_path_writers_no_file_witness :
    write_counts none OutputFormat.Infer ["g"] [[3]] = ⟨[], none⟩ ∧
    write_cell_metadata none OutputFormat.Infer
      { lam := [], lam_bg := [], r := [], φ := [], z := [],
        cell_volume := [], cell_population := [], total_gene_counts := [],
        ncells := 0, ncomponents := 0, ngenes := 0, nlayers := 0 }
      [((0 : Rat), (0 : Rat), (0 : Rat))] [(0, 0)] [0] ["f0"] = ⟨[], none⟩ :=
  ⟨unset_path_writers_no_file.1 OutputFormat.Infer ["g"] [[3]],
   (unset_path_writers_no_file.2.2.2.2.2.2.2.2.2 OutputFormat.Infer
      { lam := [], lam_bg := [], r := [], φ := [], z := [],
        cell_volume := [], cell_population := [], total_gene_counts := [],
        ncells := 0, ncomponents := 0, ngenes := 0, nlayers := 0 }
      [((0 : Rat), (0 : Rat), (0 : Rat))] [(0, 0)] [0] ["f0"]).2 (by decide)⟩

end Proseg
